import Mathlib

set_option maxHeartbeats 1000000
set_option maxRecDepth 100000

/-!
Shallow embedding of the SIEM detection/correlation core
(`src/backend/src/services/intrusionDetector.js`,
`src/backend/src/services/notificationService.js`,
`src/backend/src/models/IntrusionAlert.js`, and the correlation engine).

Machine conventions: timestamps are `ℤ` (milliseconds), confidences and risk
scores are `ℚ` (JS numbers; the arithmetic involved is exact in ℚ except for
`Math.sqrt`, which is handled explicitly where it occurs), Mongo documents are
records, and collections are `List`s in insertion order.  JS `Map` grouping is
modelled by first-occurrence key lists plus order-preserving filters, which
reproduces the insertion-order iteration of `Map`.
-/

namespace Siem

/-! ### String helpers: JS `String.prototype.includes` over lower-cased text -/

/-- Substring test on character lists (JS `includes`). -/
def listContains (needle : List Char) : List Char → Bool
  | [] => needle.isEmpty
  | c :: rest => needle.isPrefixOf (c :: rest) || listContains needle rest

/-- `strContains hay needle` models `hay.includes(needle)`. -/
def strContains (hay needle : String) : Bool := listContains needle.data hay.data

/-- `message.toLowerCase()`, character-wise. -/
def strToLower (s : String) : String := ⟨s.data.map Char.toLower⟩

/-! ### Data model (`IntrusionAlert.js`, `Log.js`) -/

inductive Severity
  | low | medium | high | critical
deriving DecidableEq, Repr

inductive Status
  | active | investigating | resolved | false_positive
deriving DecidableEq, Repr

structure TimelineEntry where
  event : String
  details : String
  user : Option String
deriving DecidableEq, Repr

/-- A `notifications` array entry; only `method` matters to the escalation
queries (`'notifications.method'`), the other bookkeeping fields are dropped. -/
structure NotificationRecord where
  method : String
deriving DecidableEq, Repr

structure Alert where
  type : String
  severity : Severity
  status : Status
  sourceIp : String
  confidence : ℚ
  riskScore : ℚ
  relatedLogs : List ℕ
  correlationId : Option String
  affectedAssets : List String
  timeline : List TimelineEntry
  notifications : List NotificationRecord
  createdAt : ℤ
  assignedTo : Option String
  resolvedAt : Option ℤ
  resolvedBy : Option String
  resolutionNotes : Option String
deriving DecidableEq, Repr

/-- A log event.  `sourceIp = ""` models a missing/empty sourceIp (JS falsy);
`detailsSize` is `parseInt(log.details.size)` when `details.size` is present
and truthy. -/
structure Log where
  id : ℕ
  timestamp : ℤ
  category : String
  message : String
  sourceIp : String
  detailsSize : Option ℤ
  processed : Bool
deriving DecidableEq, Repr

/-! ### Pre-save hook (`IntrusionAlert.js` lines 242-255) -/

/-- `severityWeight` table of the pre-save middleware. -/
def severityWeight : Severity → ℚ
  | .low => 2
  | .medium => 5
  | .high => 8
  | .critical => 10

/-- `save` runs the pre-save middleware:
`riskScore = Math.min(10, baseScore * (confidence / 100))`. -/
def save (a : Alert) : Alert :=
  { a with riskScore := min 10 (severityWeight a.severity * (a.confidence / 100)) }

/-- The spec's riskScore invariant, read off the same formula. -/
def RiskInv (a : Alert) : Prop :=
  a.riskScore = min 10 (severityWeight a.severity * (a.confidence / 100))

/-! ### Detection candidates and `createAlert`
(`intrusionDetector.js` lines 144-159, 339-376) -/

/-- The fields a detection rule puts into a detection object (title,
description and attackVector are presentational strings and are dropped). -/
structure Candidate where
  sourceIp : String
  confidence : ℚ
  relatedLogs : Option (List ℕ)
  affectedAssets : List String
  correlationId : Option String
deriving DecidableEq, Repr

/-- A detection object after `executeDetectionRule` spreads in the rule's
`type` and `severity`. -/
structure AlertData where
  type : String
  severity : Severity
  sourceIp : String
  confidence : ℚ
  relatedLogs : Option (List ℕ)
  affectedAssets : List String
  correlationId : Option String
deriving DecidableEq, Repr

/-- The `findOne` predicate of `createAlert`: same type, same sourceIp,
status active/investigating, created within the detection time window. -/
def dedupMatch (now window : ℤ) (d : AlertData) (a : Alert) : Bool :=
  decide (a.type = d.type) && decide (a.sourceIp = d.sourceIp) &&
    (decide (a.status = .active) || decide (a.status = .investigating)) &&
    decide (now - window ≤ a.createdAt)

/-- Merge path of `createAlert`: confidence becomes the max, the candidate's
relatedLogs are `push`ed (concatenated) onto the existing array, then the
document is saved (re-running the pre-save hook). -/
def mergeAlert (d : AlertData) (a : Alert) : Alert :=
  save { a with
    confidence := max a.confidence d.confidence,
    relatedLogs := a.relatedLogs ++ d.relatedLogs.getD [] }

/-- `findOne`-then-`save`: rewrite the first element satisfying `p` in place. -/
def applyFirst (p : Alert → Bool) (f : Alert → Alert) : List Alert → List Alert
  | [] => []
  | a :: rest => if p a then f a :: rest else a :: applyFirst p f rest

/-- `new IntrusionAlert(alertData)` followed by `save`: schema defaults give
`status = active` and `riskScore = 5` (then recomputed by the hook); `createdAt`
is the creation time. -/
def newAlert (now : ℤ) (d : AlertData) : Alert :=
  save
    { type := d.type
      severity := d.severity
      status := .active
      sourceIp := d.sourceIp
      confidence := d.confidence
      riskScore := 5
      relatedLogs := d.relatedLogs.getD []
      correlationId := d.correlationId
      affectedAssets := d.affectedAssets
      timeline := []
      notifications := []
      createdAt := now
      assignedTo := none
      resolvedAt := none
      resolvedBy := none
      resolutionNotes := none }

/-- `createAlert` (`intrusionDetector.js` lines 339-376).  Returns the updated
alert collection together with the "immediate notification triggered" flag,
which fires only on the create path and only for high/critical severity. -/
def createAlert (now window : ℤ) (alerts : List Alert) (d : AlertData) :
    List Alert × Bool :=
  if alerts.any (dedupMatch now window d) then
    (applyFirst (dedupMatch now window d) (mergeAlert d) alerts, false)
  else
    let a := newAlert now d
    (alerts ++ [a], decide (a.severity = .high) || decide (a.severity = .critical))

/-- One rule's detections flowing through `createAlert` in order. -/
def runCandidates (now window : ℤ) (alerts : List Alert) (ds : List AlertData) :
    List Alert :=
  ds.foldl (fun st d => (createAlert now window st d).1) alerts

/-- Number of alerts in the collection for one (type, sourceIp) dedup key. -/
def keyCount (t ip : String) (alerts : List Alert) : ℕ :=
  alerts.countP (fun a => decide (a.type = t) && decide (a.sourceIp = ip))

/-! ### Correlation materializer (correlation engine lines 369-410) -/

/-- The `findOne` predicate of `createCorrelatedAlert`: exact correlationId
match among active/investigating alerts (no time-window clause here). -/
def corrMatch (d : Candidate) (a : Alert) : Bool :=
  decide (a.correlationId = d.correlationId) &&
    (decide (a.status = .active) || decide (a.status = .investigating))

/-- `calculateCorrelationSeverity` (lines 401-410).  JS `confidence || 50`
also replaces a 0 confidence by 50; `affectedAssets || []` only replaces an
absent array (an empty array is truthy). -/
def calculateCorrelationSeverity (confidence : Option ℚ)
    (affectedAssets : Option (List String)) : Severity :=
  let conf : ℚ := match confidence with
    | none => 50
    | some c => if c = 0 then 50 else c
  let assetCount := (affectedAssets.getD []).length
  if 80 ≤ conf ∧ 3 ≤ assetCount then .critical
  else if 70 ≤ conf ∨ 2 ≤ assetCount then .high
  else if 60 ≤ conf then .medium
  else .low

/-- `new IntrusionAlert({...correlationData, type, severity, detectionMethod})`
followed by `save`. -/
def newCorrelatedAlert (now : ℤ) (d : Candidate) (ruleType : String) : Alert :=
  save
    { type := ruleType
      severity := calculateCorrelationSeverity (some d.confidence) (some d.affectedAssets)
      status := .active
      sourceIp := d.sourceIp
      confidence := d.confidence
      riskScore := 5
      relatedLogs := d.relatedLogs.getD []
      correlationId := d.correlationId
      affectedAssets := d.affectedAssets
      timeline := []
      notifications := []
      createdAt := now
      assignedTo := none
      resolvedAt := none
      resolvedBy := none
      resolutionNotes := none }

/-- `createCorrelatedAlert` (lines 369-399): on a dedup hit the existing alert
is returned untouched (only a debug line is logged); otherwise a new composite
alert is created. -/
def createCorrelatedAlert (now : ℤ) (alerts : List Alert) (d : Candidate)
    (ruleType : String) : List Alert × Option Alert :=
  match alerts.find? (corrMatch d) with
  | some existing => (alerts, some existing)
  | none =>
      let a := newCorrelatedAlert now d ruleType
      (alerts ++ [a], some a)

/-! ### Alert lifecycle methods (`IntrusionAlert.js` lines 199-239) -/

def statusName : Status → String
  | .active => "active"
  | .investigating => "investigating"
  | .resolved => "resolved"
  | .false_positive => "false_positive"

/-- `updateStatus` (lines 211-228): always push a timeline entry; only
`newStatus === 'resolved'` sets resolvedAt/resolvedBy (and resolutionNotes when
notes are given); finally `save`. -/
def updateStatus (now : ℤ) (a : Alert) (newStatus : Status) (userId : String)
    (notes : Option String) : Alert :=
  let entry : TimelineEntry :=
    { event := "Status Changed"
      details := "Status changed from " ++ statusName a.status ++ " to " ++
        statusName newStatus ++ (match notes with | some n => ": " ++ n | none => "")
      user := some userId }
  let a1 := { a with status := newStatus, timeline := a.timeline ++ [entry] }
  let a2 :=
    if newStatus = Status.resolved then
      { a1 with
        resolvedAt := some now
        resolvedBy := some userId
        resolutionNotes := match notes with | some n => some n | none => a1.resolutionNotes }
    else a1
  save a2

/-- `assignTo` (lines 200-208). -/
def assignTo (a : Alert) (userId : String) : Alert :=
  save
    { a with
      assignedTo := some userId
      timeline := a.timeline ++
        [{ event := "Alert Assigned"
           details := "Alert assigned to user " ++ userId
           user := some userId }] }

/-! ### Brute-force rule (`intrusionDetector.js` lines 161-194)

JS `Map` grouping is modelled by the insertion-ordered list of first-seen
source IPs plus order-preserving filters. -/

/-- The grouping filter of `detectBruteForce`: security category, message
contains `failed` after lower-casing, nonempty sourceIp. -/
def isFailedSecLog (l : Log) : Bool :=
  decide (l.category = "security") && strContains (strToLower l.message) "failed" &&
    decide (l.sourceIp ≠ "")

/-- Append a key only if it is not already present (JS `Map` insertion). -/
def insertNew (acc : List String) (s : String) : List String :=
  if s ∈ acc then acc else acc ++ [s]

/-- First-occurrence order of the source IPs of logs passing `f`. -/
def firstSeenIps (f : Log → Bool) (logs : List Log) : List String :=
  logs.foldl (fun acc l => if f l then insertNew acc l.sourceIp else acc) []

/-- The per-IP bucket of a JS `Map` grouping: matching logs in list order. -/
def failedFrom (logs : List Log) (ip : String) : List Log :=
  (logs.filter isFailedSecLog).filter (fun l => decide (l.sourceIp = ip))

/-- `this.alertThresholds.bruteForceAttempts` (constructor, line 48). -/
def bruteForceAttempts : ℕ := 5

/-- The per-IP candidate of `detectBruteForce`: a detection when the
failed-attempt bucket reaches the threshold, with
`confidence = Math.min(95, 60 + count * 5)`. -/
def bruteCandidate (logs : List Log) (ip : String) : Option Candidate :=
  let attempts := failedFrom logs ip
  if bruteForceAttempts ≤ attempts.length then
    some
      { sourceIp := ip
        confidence := min 95 (60 + (attempts.length : ℚ) * 5)
        relatedLogs := some (attempts.map Log.id)
        affectedAssets := ["Authentication System"]
        correlationId := none }
  else none

/-- `detectBruteForce`: one detection per sourceIp whose failed-attempt bucket
reaches the threshold. -/
def detectBruteForce (logs : List Log) : List Candidate :=
  (firstSeenIps isFailedSecLog logs).filterMap (bruteCandidate logs)

/-! ### Regex signatures (`detectSQLInjection`, `detectPrivilegeEscalation`)

The fixed patterns use only literals, `\s+`, `\s*` and `.*`; they are compiled
to token lists and matched unanchored (JS `RegExp.test`). -/

inductive Tok
  | lit (s : List Char)
  | ws1
  | ws0
  | anyStar
deriving Repr

/-- JS `\s` (restricted to the ASCII whitespace that occurs in log text). -/
def isWsChar (c : Char) : Bool :=
  c = ' ' || c = '\t' || c = '\n' || c = '\r' || c = '\x0b' || c = '\x0c'

/-- Match a token list against a prefix of `s` (backtracking; `anyStar` is
`.*`, which does not cross a newline). -/
def matchHere : List Tok → List Char → Bool
  | [], _ => true
  | Tok.lit l :: ts, s => l.isPrefixOf s && matchHere ts (s.drop l.length)
  | Tok.ws1 :: ts, s =>
      match s with
      | [] => false
      | c :: rest => isWsChar c && matchHere (Tok.ws0 :: ts) rest
  | Tok.ws0 :: ts, s =>
      matchHere ts s ||
        (match s with
         | [] => false
         | c :: rest => isWsChar c && matchHere (Tok.ws0 :: ts) rest)
  | Tok.anyStar :: ts, s =>
      matchHere ts s ||
        (match s with
         | [] => false
         | c :: rest => decide (c ≠ '\n') && matchHere (Tok.anyStar :: ts) rest)
termination_by ts s => s.length + ts.length
decreasing_by
  all_goals simp_wf
  all_goals omega

/-- Unanchored search (`pattern.test(message)`). -/
def searchPat (toks : List Tok) : List Char → Bool
  | [] => matchHere toks []
  | c :: rest => matchHere toks (c :: rest) || searchPat toks rest

def testPat (toks : List Tok) (s : String) : Bool := searchPat toks s.data

/-- `sqlPatterns` (lines 198-207); the `/i` flag is absorbed by testing the
lower-cased message. -/
def sqlPatterns : List (List Tok) :=
  [ [Tok.lit "union".data, Tok.ws1, Tok.lit "select".data],
    [Tok.lit "or".data, Tok.ws1, Tok.lit "1".data, Tok.ws0, Tok.lit "=".data,
      Tok.ws0, Tok.lit "1".data],
    [Tok.lit "drop".data, Tok.ws1, Tok.lit "table".data],
    [Tok.lit "insert".data, Tok.ws1, Tok.lit "into".data],
    [Tok.lit "delete".data, Tok.ws1, Tok.lit "from".data],
    [Tok.lit "update".data, Tok.ws1, Tok.anyStar, Tok.ws1, Tok.lit "set".data],
    [Tok.lit "exec".data, Tok.ws0, Tok.lit "(".data],
    [Tok.lit "script".data, Tok.ws0, Tok.lit ">".data] ]

/-- `detectSQLInjection` (lines 196-231): first matching pattern wins and at
most one detection is pushed per log (`break`). -/
def detectSQLInjection (logs : List Log) : List Candidate :=
  logs.filterMap fun l =>
    if l.category = "application" ∨ l.category = "database" then
      if sqlPatterns.any (fun p => testPat p (strToLower l.message)) then
        some
          { sourceIp := l.sourceIp
            confidence := 85
            relatedLogs := some [l.id]
            affectedAssets := ["Database", "Web Application"]
            correlationId := none }
      else none
    else none

/-- `privilegePatterns` (lines 274-281). -/
def privilegePatterns : List (List Tok) :=
  [ [Tok.lit "sudo".data, Tok.ws1, Tok.lit "su".data],
    [Tok.lit "chmod".data, Tok.ws1, Tok.lit "777".data],
    [Tok.lit "chown".data, Tok.ws1, Tok.lit "root".data],
    [Tok.lit "privilege".data, Tok.anyStar, Tok.lit "escalat".data],
    [Tok.lit "admin".data, Tok.anyStar, Tok.lit "access".data],
    [Tok.lit "root".data, Tok.anyStar, Tok.lit "shell".data] ]

/-- `detectPrivilegeEscalation` (lines 272-305). -/
def detectPrivilegeEscalation (logs : List Log) : List Candidate :=
  logs.filterMap fun l =>
    if l.category = "system" ∨ l.category = "security" then
      if privilegePatterns.any (fun p => testPat p (strToLower l.message)) then
        some
          { sourceIp := l.sourceIp
            confidence := 75
            relatedLogs := some [l.id]
            affectedAssets := ["System"]
            correlationId := none }
      else none
    else none

/-! ### Anomalous-traffic rule (`intrusionDetector.js` lines 233-270)

`Math.sqrt` is irrational-valued, so the flag decision
`count > mean + k·stdDev` is encoded exactly over ℚ by a sign-and-square
comparison (`exceedsStdDev`); the `anomaly_rule_behavior` theorem proves the
encoding equal to the real-number comparison.  The emitted confidence divides
by the irrational threshold, so the candidate constructor is parametrized by
the square-root routine `sqrtQ`; no proved property depends on its values. -/

/-- The grouping filter of `detectAnomalousTraffic`. -/
def isAppTraffic (l : Log) : Bool :=
  decide (l.sourceIp ≠ "") && decide (l.category = "application")

def trafficIps (logs : List Log) : List String := firstSeenIps isAppTraffic logs

/-- Per-IP request count (the `Map` counter). -/
def trafficCount (logs : List Log) (ip : String) : ℕ :=
  ((logs.filter isAppTraffic).filter (fun l => decide (l.sourceIp = ip))).length

/-- The `Map` as an insertion-ordered association list. -/
def trafficCounts (logs : List Log) : List (String × ℕ) :=
  (trafficIps logs).map fun ip => (ip, trafficCount logs ip)

/-- Population mean of the observed counts. -/
def qmean (cs : List ℕ) : ℚ := (cs.map fun c => (c : ℚ)).sum / cs.length

/-- Population variance of the observed counts. -/
def qvariance (cs : List ℕ) : ℚ :=
  (cs.map fun c => ((c : ℚ) - qmean cs) ^ 2).sum / cs.length

/-- `this.alertThresholds.anomalyThreshold` (k standard deviations). -/
def anomalyThreshold : ℚ := 3

/-- Exact ℚ encoding of `count > mean + k·√variance` (for `k, variance ≥ 0`). -/
def exceedsStdDev (k count mean variance : ℚ) : Bool :=
  decide (mean < count) && decide (k ^ 2 * variance < (count - mean) ^ 2)

/-- The IPs (with counts) passing both `count > threshold` and the absolute
floor `count > 50`, guarded by `requestCounts.length > 0`. -/
def flaggedPairs (logs : List Log) : List (String × ℕ) :=
  let counts := trafficCounts logs
  if 0 < counts.length then
    let m := qmean (counts.map Prod.snd)
    let v := qvariance (counts.map Prod.snd)
    counts.filter fun p =>
      exceedsStdDev anomalyThreshold (p.2 : ℚ) m v && decide (50 < p.2)
  else []

/-- One anomaly detection:
`confidence = Math.min(90, 50 + ((count - threshold) / threshold * 40))` with
`threshold = mean + k·sqrt(variance)`. -/
def mkAnomalyCandidate (sqrtQ : ℚ → ℚ) (m v : ℚ) (p : String × ℕ) : Candidate :=
  let threshold := m + anomalyThreshold * sqrtQ v
  { sourceIp := p.1
    confidence := min 90 (50 + ((p.2 : ℚ) - threshold) / threshold * 40)
    relatedLogs := none
    affectedAssets := ["Web Application"]
    correlationId := none }

/-- `detectAnomalousTraffic` (lines 233-270). -/
def detectAnomalousTraffic (sqrtQ : ℚ → ℚ) (logs : List Log) : List Candidate :=
  let counts := trafficCounts logs
  (flaggedPairs logs).map
    (mkAnomalyCandidate sqrtQ (qmean (counts.map Prod.snd))
      (qvariance (counts.map Prod.snd)))

/-! ### Data-exfiltration rule (`intrusionDetector.js` lines 307-337) -/

/-- The grouping filter of `detectDataExfiltration`: a truthy `details.size`
and a nonempty sourceIp. -/
def hasTransfer (l : Log) : Bool :=
  l.detailsSize.isSome && decide (l.sourceIp ≠ "")

def transferIps (logs : List Log) : List String := firstSeenIps hasTransfer logs

/-- Cumulative `parseInt(details.size) || 0` per sourceIp. -/
def transferTotal (logs : List Log) (ip : String) : ℤ :=
  (((logs.filter hasTransfer).filter fun l => decide (l.sourceIp = ip)).map
    fun l => l.detailsSize.getD 0).sum

/-- `this.alertThresholds.dataTransferThreshold` = 100MB. -/
def dataTransferThreshold : ℤ := 100 * 1024 * 1024

/-- `detectDataExfiltration` (lines 307-337); no relatedLogs are attached. -/
def detectDataExfiltration (logs : List Log) : List Candidate :=
  (transferIps logs).filterMap fun ip =>
    if dataTransferThreshold < transferTotal logs ip then
      some
        { sourceIp := ip
          confidence := 70
          relatedLogs := none
          affectedAssets := ["Data Storage", "Network"]
          correlationId := none }
    else none

/-! ### Detection rule table and cycle (`intrusionDetector.js` lines 9-45,
112-159) -/

/-- A detection rule.  `condition` returns `Except` to model the `try/catch`
of `executeDetectionRule`: a throwing rule is an `error` value. -/
structure DetRule where
  name : String
  type : String
  condition : List Log → Except String (List Candidate)
  severity : Severity
  enabled : Bool

/-- `this.detectionRules` (constructor, lines 9-45), parametrized by the
square-root routine used inside the anomaly confidence. -/
def detectionRules (sqrtQ : ℚ → ℚ) : List DetRule :=
  [ { name := "Brute Force Detection", type := "brute_force"
      condition := fun logs => .ok (detectBruteForce logs)
      severity := .high, enabled := true },
    { name := "SQL Injection Detection", type := "sql_injection"
      condition := fun logs => .ok (detectSQLInjection logs)
      severity := .critical, enabled := true },
    { name := "Unusual Traffic Pattern", type := "anomaly"
      condition := fun logs => .ok (detectAnomalousTraffic sqrtQ logs)
      severity := .medium, enabled := true },
    { name := "Privilege Escalation", type := "privilege_escalation"
      condition := fun logs => .ok (detectPrivilegeEscalation logs)
      severity := .high, enabled := true },
    { name := "Data Exfiltration", type := "data_exfiltration"
      condition := fun logs => .ok (detectDataExfiltration logs)
      severity := .critical, enabled := true } ]

/-- `{...detection, type: rule.type, severity: rule.severity, ...}`:
the rule's type and severity override anything in the candidate. -/
def tagCandidate (r : DetRule) (d : Candidate) : AlertData :=
  { type := r.type
    severity := r.severity
    sourceIp := d.sourceIp
    confidence := d.confidence
    relatedLogs := d.relatedLogs
    affectedAssets := d.affectedAssets
    correlationId := d.correlationId }

/-- `executeDetectionRule` (lines 144-159): a throwing rule is caught and
logged, leaving the alert collection unchanged. -/
def executeDetectionRule (now window : ℤ) (r : DetRule) (st : List Alert)
    (logs : List Log) : List Alert :=
  match r.condition logs with
  | .error _ => st
  | .ok ds => ds.foldl (fun s d => (createAlert now window s (tagCandidate r d)).1) st

/-- The `Log.find` query of `runDetectionCycle`: in-window, unprocessed. -/
def fetchBatch (now window : ℤ) (store : List Log) : List Log :=
  store.filter fun l => decide (now - window ≤ l.timestamp) && !l.processed

/-- The `Log.updateMany({_id: {$in: logIds}}, {processed: true})` step. -/
def markProcessed (batch store : List Log) : List Log :=
  store.map fun l =>
    if batch.any (fun b => decide (b.id = l.id)) then { l with processed := true }
    else l

/-- `runDetectionCycle` (lines 112-142): fetch the batch, run every enabled
rule over it, then mark the fetched logs processed. -/
def runDetectionCycle (now window : ℤ) (rules : List DetRule) (st : List Alert)
    (store : List Log) : List Alert × List Log :=
  let batch := fetchBatch now window store
  let st2 := rules.foldl
    (fun s r => if r.enabled then executeDetectionRule now window r s batch else s) st
  (st2, markProcessed batch store)

/-! ### Escalation scan (`notificationService.js` lines 27-43, 293-316) -/

structure EscRule where
  severity : Severity
  escalateAfter : ℤ
  channels : List String

/-- `this.escalationRules` (constructor, lines 27-43). -/
def escalationRules : List EscRule :=
  [ { severity := .critical, escalateAfter := 300000
      channels := ["email", "webhook", "dashboard"] },
    { severity := .high, escalateAfter := 900000
      channels := ["email", "dashboard"] },
    { severity := .medium, escalateAfter := 1800000
      channels := ["dashboard"] } ]

/-- Mongo `$regex: rule.channels.join('|')` against a stored method string:
an unanchored alternation matches iff some channel name occurs as a substring
of the method. -/
def methodMatchesChannels (channels : List String) (method : String) : Bool :=
  channels.any fun c => strContains method c

/-- The per-rule `IntrusionAlert.find` filter of `checkEscalations`:
matching severity, status active, old enough, and `$not` the regex over the
`notifications.method` array (no element may match). -/
def escMatches (now : ℤ) (r : EscRule) (a : Alert) : Bool :=
  decide (a.severity = r.severity) && decide (a.status = .active) &&
    decide (a.createdAt ≤ now - r.escalateAfter) &&
    !(a.notifications.any fun n => methodMatchesChannels r.channels n.method)

/-- `checkEscalations` (lines 293-316): the list of `queueNotification(alert,
rule.channels)` enqueues, one per selected alert per rule. -/
def checkEscalations (now : ℤ) (alerts : List Alert) : List (Alert × List String) :=
  escalationRules.flatMap fun r =>
    (alerts.filter (escMatches now r)).map fun a => (a, r.channels)

/-- `updateAlertNotificationStatus` (lines 273-291) records
`method: notification.channels.join(',')` on the alert. -/
def recordNotification (channels : List String) (a : Alert) : Alert :=
  { a with
    notifications := a.notifications ++ [{ method := String.intercalate "," channels }] }

/-! ### Spec-side definition for the severity-mapping refinement claim -/

/-- Modelled from the spec: "confidence≥80 and assetCount≥3 → critical;
confidence≥70 or assetCount≥2 → high; confidence≥60 → medium; else low",
"with confidence defaulting to 50 when absent". -/
def severitySpecCascade (confidence : Option ℚ)
    (affectedAssets : Option (List String)) : Severity :=
  let conf := confidence.getD 50
  let assetCount := (affectedAssets.getD []).length
  if 80 ≤ conf ∧ 3 ≤ assetCount then .critical
  else if 70 ≤ conf ∨ 2 ≤ assetCount then .high
  else if 60 ≤ conf then .medium
  else .low

/-! ### Proof-side invariant and concrete fixtures -/

/-- State invariant for the merge-idempotence argument: every alert in the
collection was created (status still `active`) at time `now`. -/
def AllNow (now : ℤ) (st : List Alert) : Prop :=
  ∀ a ∈ st, a.status = Status.active ∧ a.createdAt = now

/-- A plain active alert used as a concrete fixture. -/
def baseAlert : Alert :=
  { type := "brute_force"
    severity := .high
    status := .active
    sourceIp := "1.2.3.4"
    confidence := 70
    riskScore := 5
    relatedLogs := []
    correlationId := none
    affectedAssets := []
    timeline := []
    notifications := []
    createdAt := 0
    assignedTo := none
    resolvedAt := none
    resolvedBy := none
    resolutionNotes := none }

def exAlertC1 : Alert := { baseAlert with relatedLogs := [1, 2] }

def exDataC1 : AlertData :=
  { type := "brute_force"
    severity := .high
    sourceIp := "1.2.3.4"
    confidence := 90
    relatedLogs := some [2, 3]
    affectedAssets := []
    correlationId := none }

def exAlertC2 : Alert :=
  { baseAlert with type := "attack_chain", correlationId := some "CHAIN-1", confidence := 60 }

def exCandC2 : Candidate :=
  { sourceIp := "1.2.3.4"
    confidence := 90
    relatedLogs := none
    affectedAssets := []
    correlationId := some "CHAIN-1" }

def mkSecLog (i : ℕ) (ip : String) : Log :=
  { id := i
    timestamp := 0
    category := "security"
    message := "Failed password for admin"
    sourceIp := ip
    detailsSize := none
    processed := false }

def exBruteLogs : List Log := (List.range 5).map fun i => mkSecLog i "9.9.9.9"

def mkAppLog (i : ℕ) (ip : String) : Log :=
  { id := i
    timestamp := 0
    category := "application"
    message := "request"
    sourceIp := ip
    detailsSize := none
    processed := false }

/-- Per-IP application-event counts [10, 10, 10, 60] (the spec's example). -/
def logs10101060 : List Log :=
  ((List.range 10).map fun i => mkAppLog i "10.0.0.1") ++
    ((List.range 10).map fun i => mkAppLog (10 + i) "10.0.0.2") ++
    ((List.range 10).map fun i => mkAppLog (20 + i) "10.0.0.3") ++
    ((List.range 60).map fun i => mkAppLog (30 + i) "10.0.0.4")

/-- A detection rule whose evaluation throws. -/
def errRule : DetRule :=
  { name := "Broken Rule"
    type := "other"
    condition := fun _ => .error "boom"
    severity := .low
    enabled := true }

def exEscAlert : Alert := { baseAlert with severity := .critical }

/-! ## Theorems -/

/-! ### Helper lemmas about the materializer -/

theorem save_riskInv (a : Alert) : RiskInv (save a) := rfl

theorem mem_applyFirst (p : Alert → Bool) (f : Alert → Alert) :
    ∀ (l : List Alert) (b : Alert), b ∈ applyFirst p f l →
      b ∈ l ∨ ∃ a ∈ l, b = f a := by
  intro l
  induction l with
  | nil => intro b h; simp [applyFirst] at h
  | cons a rest ih =>
      intro b h
      by_cases hp : p a = true
      · simp only [applyFirst, hp, if_true, List.mem_cons] at h
        rcases h with h | h
        · exact Or.inr ⟨a, List.mem_cons_self a rest, h⟩
        · exact Or.inl (List.mem_cons_of_mem a h)
      · simp only [applyFirst, hp, if_false, Bool.false_eq_true, List.mem_cons] at h
        rcases h with h | h
        · exact Or.inl (h ▸ List.mem_cons_self a rest)
        · rcases ih b h with h2 | ⟨x, hx, hbx⟩
          · exact Or.inl (List.mem_cons_of_mem a h2)
          · exact Or.inr ⟨x, List.mem_cons_of_mem a hx, hbx⟩

theorem applyFirst_append_first (p : Alert → Bool) (f : Alert → Alert)
    (pre : List Alert) (a : Alert) (post : List Alert)
    (hpre : ∀ b ∈ pre, p b = false) (ha : p a = true) :
    applyFirst p f (pre ++ a :: post) = pre ++ f a :: post := by
  induction pre with
  | nil => simp [applyFirst, ha]
  | cons x xs ih =>
      have hx : p x = false := hpre x (List.mem_cons_self x xs)
      simpa [applyFirst, hx] using ih fun b hb => hpre b (List.mem_cons_of_mem x hb)

theorem countP_applyFirst (p q : Alert → Bool) (f : Alert → Alert)
    (hf : ∀ a, q (f a) = q a) (l : List Alert) :
    (applyFirst p f l).countP q = l.countP q := by
  induction l with
  | nil => rfl
  | cons a rest ih =>
      by_cases hp : p a = true
      · simp [applyFirst, hp, List.countP_cons, hf]
      · simp [applyFirst, hp, List.countP_cons, ih]

/-! ### C3 — riskScore invariant after every mutation -/

/-- C3: for every persisted Alert, after every mutation (`save`), `riskScore`
equals `min(10, severityWeight(severity) × confidence/100)`, with weights
low=2, medium=5, high=8, critical=10; all mutating operations preserve the
invariant across the collection. -/
theorem riskScore_invariant_all_mutations :
    (∀ a : Alert, RiskInv (save a))
    ∧ (severityWeight .low = 2 ∧ severityWeight .medium = 5 ∧
        severityWeight .high = 8 ∧ severityWeight .critical = 10)
    ∧ (∀ now window st d, (∀ a ∈ st, RiskInv a) →
        ∀ a ∈ (createAlert now window st d).1, RiskInv a)
    ∧ (∀ now st d rt, (∀ a ∈ st, RiskInv a) →
        ∀ a ∈ (createCorrelatedAlert now st d rt).1, RiskInv a)
    ∧ (∀ now a ns u notes, RiskInv (updateStatus now a ns u notes))
    ∧ (∀ a u, RiskInv (assignTo a u)) := by
  refine ⟨save_riskInv, ⟨rfl, rfl, rfl, rfl⟩, ?_, ?_, ?_, ?_⟩
  · intro now window st d hst a ha
    by_cases hany : st.any (dedupMatch now window d) = true
    · simp only [createAlert, hany, if_true] at ha
      rcases mem_applyFirst _ _ st a ha with h | ⟨b, _, rfl⟩
      · exact hst a h
      · exact save_riskInv _
    · simp only [createAlert, hany, Bool.false_eq_true, if_false, List.mem_append,
        List.mem_singleton] at ha
      rcases ha with h | rfl
      · exact hst a h
      · exact save_riskInv _
  · intro now st d rt hst a ha
    rw [createCorrelatedAlert] at ha
    cases hfind : st.find? (corrMatch d) with
    | some e => rw [hfind] at ha; exact hst a ha
    | none =>
        rw [hfind] at ha
        simp only [List.mem_append, List.mem_singleton] at ha
        rcases ha with h | rfl
        · exact hst a h
        · exact save_riskInv _
  · intro now a ns u notes
    exact save_riskInv _
  · intro a u
    exact save_riskInv _

theorem riskScore_invariant_witness : RiskInv (newAlert 0 exDataC1) :=
  riskScore_invariant_all_mutations.2.2.1 0 300000 [] exDataC1 (by simp)
    (newAlert 0 exDataC1) (by simp [createAlert])

/-! ### C9 — composite-alert severity mapping refines the spec cascade -/

/-- C9: `calculateCorrelationSeverity` computes exactly the spec's cascade
(critical iff confidence≥80 and assetCount≥3; else high iff confidence≥70 or
assetCount≥2; else medium iff confidence≥60; else low; confidence defaults to
50 when absent). -/
theorem correlation_severity_refines_spec (conf : Option ℚ)
    (assets : Option (List String)) :
    calculateCorrelationSeverity conf assets = severitySpecCascade conf assets := by
  cases conf with
  | none => rfl
  | some c =>
      by_cases hc : c = 0
      · subst hc
        simp only [calculateCorrelationSeverity, severitySpecCascade, Option.getD_some]
        norm_num
      · simp [calculateCorrelationSeverity, severitySpecCascade, hc]

/-! ### C7 — updateStatus: timeline always appended, resolution fields -/

/-- C7 counterexample: a transition to `false_positive` does NOT set
resolvedAt/resolvedBy (only `resolved` does), contradicting the claim. -/
theorem updateStatus_false_positive_counterexample :
    (updateStatus 5 baseAlert .false_positive "analyst" none).resolvedAt = none ∧
    (updateStatus 5 baseAlert .false_positive "analyst" none).resolvedBy = none := by
  constructor <;> rfl

/-- C7 (amended): every `updateStatus` transition appends exactly one timeline
entry and installs the new status; a transition to `resolved` additionally
sets resolvedAt/resolvedBy, while a transition to `false_positive` leaves
them unchanged. -/
theorem updateStatus_timeline_and_resolution :
    (∀ now a ns u notes,
        (updateStatus now a ns u notes).timeline.length = a.timeline.length + 1 ∧
        (updateStatus now a ns u notes).status = ns)
    ∧ (∀ now a u notes,
        (updateStatus now a .resolved u notes).resolvedAt = some now ∧
        (updateStatus now a .resolved u notes).resolvedBy = some u)
    ∧ (∀ now a u notes,
        (updateStatus now a .false_positive u notes).resolvedAt = a.resolvedAt ∧
        (updateStatus now a .false_positive u notes).resolvedBy = a.resolvedBy) := by
  refine ⟨?_, ?_, ?_⟩
  · intro now a ns u notes
    constructor
    · simp only [updateStatus, save]
      split <;> simp
    · simp only [updateStatus, save]
      split <;> rename_i h <;> simp_all
  · intro now a u notes
    constructor <;> rfl
  · intro now a u notes
    constructor <;> rfl

/-! ### C1 — detection dedup: merge semantics and idempotence -/

/-- C1 counterexample: merging pushes the candidate's relatedLogs onto the
existing array (concatenation, keeping the duplicate 2 — not a set union) and
appends no timeline entry at all (so no "merged" entry exists). -/
theorem createAlert_merge_counterexample :
    ((createAlert 0 300000 [exAlertC1] exDataC1).1.map Alert.relatedLogs =
      [[1, 2, 2, 3]]) ∧
    ((createAlert 0 300000 [exAlertC1] exDataC1).1.map Alert.timeline = [[]]) ∧
    ¬ ([1, 2, 2, 3] : List ℕ).Nodup := by
  refine ⟨?_, ?_, by decide⟩ <;> rfl

theorem dedupMatch_of_allNow {now window : ℤ} (hw : 0 ≤ window) {st : List Alert}
    (h : AllNow now st) (d : AlertData) {a : Alert} (ha : a ∈ st) :
    dedupMatch now window d a =
      (decide (a.type = d.type) && decide (a.sourceIp = d.sourceIp)) := by
  obtain ⟨hs, hc⟩ := h a ha
  have hE : now - window ≤ a.createdAt := by omega
  simp [dedupMatch, hs, hE]

theorem any_dedup_iff {now window : ℤ} (hw : 0 ≤ window) {st : List Alert}
    (h : AllNow now st) (d : AlertData) :
    st.any (dedupMatch now window d) = true ↔
      0 < keyCount d.type d.sourceIp st := by
  rw [List.any_eq_true, keyCount, List.countP_pos_iff]
  constructor
  · rintro ⟨a, ha, hd⟩
    refine ⟨a, ha, ?_⟩
    rw [dedupMatch_of_allNow hw h d ha] at hd
    exact hd
  · rintro ⟨a, ha, hp⟩
    exact ⟨a, ha, by rw [dedupMatch_of_allNow hw h d ha]; exact hp⟩

theorem createAlert_keyCount_step {now window : ℤ} (hw : 0 ≤ window)
    {st : List Alert} (h : AllNow now st) (d : AlertData) :
    AllNow now (createAlert now window st d).1 ∧
    ∀ t ip, keyCount t ip (createAlert now window st d).1 =
      if d.type = t ∧ d.sourceIp = ip then max (keyCount t ip st) 1
      else keyCount t ip st := by
  by_cases hany : st.any (dedupMatch now window d) = true
  · constructor
    · intro a ha
      simp only [createAlert, hany, if_true] at ha
      rcases mem_applyFirst _ _ st a ha with h2 | ⟨b, hb, rfl⟩
      · exact h a h2
      · exact h b hb
    · intro t ip
      have hkc : keyCount t ip (createAlert now window st d).1 = keyCount t ip st := by
        simp only [createAlert, hany, if_true, keyCount]
        exact countP_applyFirst (dedupMatch now window d)
          (fun a => decide (a.type = t) && decide (a.sourceIp = ip))
          (mergeAlert d) (fun a => rfl) st
      rw [hkc]
      by_cases hd : d.type = t ∧ d.sourceIp = ip
      · have hpos : 0 < keyCount d.type d.sourceIp st := (any_dedup_iff hw h d).1 hany
        rw [hd.1, hd.2] at hpos
        simp [hd, Nat.max_eq_left hpos]
      · simp [hd]
  · constructor
    · intro a ha
      simp only [createAlert, hany, Bool.false_eq_true, if_false, List.mem_append,
        List.mem_singleton] at ha
      rcases ha with h2 | rfl
      · exact h a h2
      · exact ⟨rfl, rfl⟩
    · intro t ip
      have hzero : keyCount d.type d.sourceIp st = 0 := by
        by_contra hne
        exact hany ((any_dedup_iff hw h d).2 (Nat.pos_of_ne_zero hne))
      simp only [createAlert, hany, Bool.false_eq_true, if_false, keyCount,
        List.countP_append, List.countP_cons, List.countP_nil]
      by_cases hd : d.type = t ∧ d.sourceIp = ip
      · obtain ⟨hdt, hdi⟩ := hd
        have hz2 : keyCount t ip st = 0 := by rw [← hdt, ← hdi]; exact hzero
        rw [keyCount] at hz2
        simp [hdt, hdi, hz2, newAlert, save]
      · have hd2 : ¬d.type = t ∨ ¬d.sourceIp = ip := Decidable.not_and_iff_or_not.1 hd
        have hna : (decide ((newAlert now d).type = t) &&
            decide ((newAlert now d).sourceIp = ip)) = false := by
          rcases hd2 with hd2 | hd2 <;> simp [newAlert, save, hd2]
        simp [hna, hd]

theorem runCandidates_keyCount {now window : ℤ} (hw : 0 ≤ window)
    (ds : List AlertData) :
    ∀ st : List Alert, AllNow now st →
      AllNow now (runCandidates now window st ds) ∧
      ∀ t ip, keyCount t ip (runCandidates now window st ds) =
        if ds.any (fun d => decide (d.type = t) && decide (d.sourceIp = ip)) = true
        then max (keyCount t ip st) 1 else keyCount t ip st := by
  induction ds with
  | nil =>
      intro st h
      refine ⟨h, ?_⟩
      intro t ip
      simp [runCandidates]
  | cons d ds ih =>
      intro st h
      obtain ⟨h1, h2⟩ := createAlert_keyCount_step hw h d
      have hrun : runCandidates now window st (d :: ds) =
          runCandidates now window (createAlert now window st d).1 ds := rfl
      obtain ⟨ha, hb⟩ := ih _ h1
      refine ⟨by rw [hrun]; exact ha, ?_⟩
      intro t ip
      rw [hrun, hb t ip, h2 t ip]
      by_cases hd : d.type = t ∧ d.sourceIp = ip
      · have hhead : (decide (d.type = t) && decide (d.sourceIp = ip)) = true := by
          simp [hd.1, hd.2]
        by_cases hds : ds.any (fun d => decide (d.type = t) && decide (d.sourceIp = ip)) = true
        · simp [hd, hds, hhead, List.any_cons, Nat.max_assoc]
        · simp [hd, hds, hhead, List.any_cons]
      · have hhead : (decide (d.type = t) && decide (d.sourceIp = ip)) = false := by
          rw [Decidable.not_and_iff_or_not] at hd
          rcases hd with hd | hd <;> simp [hd]
        by_cases hds : ds.any (fun d => decide (d.type = t) && decide (d.sourceIp = ip)) = true
        · simp [hd, hds, hhead, List.any_cons]
        · simp [hd, hds, hhead, List.any_cons]

/-- C1 (amended): when a dedup match exists, `createAlert` creates no new
Alert — the first matching Alert gets confidence = max of both, relatedLogs =
existing ++ candidate (concatenation, duplicates retained), and an unchanged
timeline (no "merged" entry); and running the same candidate batch twice from
an empty collection yields exactly one Alert per (type, sourceIp). -/
theorem createAlert_merge_and_idempotence :
    (∀ now window d (pre post : List Alert) (a : Alert),
        (∀ b ∈ pre, dedupMatch now window d b = false) →
        dedupMatch now window d a = true →
        createAlert now window (pre ++ a :: post) d =
          (pre ++ mergeAlert d a :: post, false) ∧
        (mergeAlert d a).confidence = max a.confidence d.confidence ∧
        (mergeAlert d a).relatedLogs = a.relatedLogs ++ d.relatedLogs.getD [] ∧
        (mergeAlert d a).timeline = a.timeline)
    ∧ (∀ now window (ds : List AlertData) t ip, 0 ≤ window →
        keyCount t ip
            (runCandidates now window (runCandidates now window [] ds) ds) =
          if ds.any (fun d => decide (d.type = t) && decide (d.sourceIp = ip)) = true
          then 1 else 0) := by
  constructor
  · intro now window d pre post a hpre ha
    have hany : (pre ++ a :: post).any (dedupMatch now window d) = true :=
      List.any_eq_true.2 ⟨a, by simp, ha⟩
    refine ⟨?_, rfl, rfl, rfl⟩
    simp only [createAlert, hany, if_true]
    rw [applyFirst_append_first _ _ pre a post hpre ha]
  · intro now window ds t ip hw
    have hnil : AllNow now ([] : List Alert) := by intro a ha; simp at ha
    obtain ⟨h1, h2⟩ := runCandidates_keyCount hw ds [] hnil
    obtain ⟨_, h4⟩ := runCandidates_keyCount hw ds _ h1
    rw [h4 t ip, h2 t ip]
    have hk0 : keyCount t ip [] = 0 := rfl
    by_cases hds : ds.any (fun d => decide (d.type = t) && decide (d.sourceIp = ip)) = true
    · simp [hds, hk0]
    · simp [hds, hk0]

theorem createAlert_merge_witness :
    createAlert 0 300000 ([] ++ exAlertC1 :: []) exDataC1 =
      ([] ++ mergeAlert exDataC1 exAlertC1 :: [], false) :=
  (createAlert_merge_and_idempotence.1 0 300000 exDataC1 [] [] exAlertC1
    (by simp) (by decide)).1

/-! ### C2 — correlation dedup never updates confidence -/

/-- C2 counterexample: a correlation candidate with confidence 90 hitting an
existing active alert with the same correlationId and confidence 60 leaves the
collection untouched — the confidence stays 60, not max(60, 90) = 90. -/
theorem correlation_no_confidence_max_counterexample :
    ((createCorrelatedAlert 0 [exAlertC2] exCandC2 "attack_chain").1.map
        Alert.confidence = [(60 : ℚ)]) ∧
    (60 : ℚ) ≠ max 60 90 := by
  refine ⟨rfl, by norm_num⟩

/-- C2 (amended): on a correlationId dedup hit among active/investigating
alerts, no second Alert is created and the existing Alert is returned
completely unchanged (in particular its confidence is NOT raised); absent a
hit, a second cycle with the same correlationId merges into (returns) the
alert the first cycle created, so exactly one Alert ever exists for it. -/
theorem correlation_dedup_no_update :
    (∀ now (alerts : List Alert) d rt, (∃ a ∈ alerts, corrMatch d a = true) →
        createCorrelatedAlert now alerts d rt = (alerts, alerts.find? (corrMatch d)))
    ∧ (∀ now now2 (alerts : List Alert) d rt, alerts.any (corrMatch d) = false →
        (createCorrelatedAlert now2 (createCorrelatedAlert now alerts d rt).1 d
            rt).1 = (createCorrelatedAlert now alerts d rt).1 ∧
        (createCorrelatedAlert now alerts d rt).1.length = alerts.length + 1) := by
  constructor
  · intro now alerts d rt hex
    have hsome : (alerts.find? (corrMatch d)).isSome := by
      rw [List.find?_isSome]
      obtain ⟨a, ha, hc⟩ := hex
      exact ⟨a, ha, hc⟩
    obtain ⟨e, he⟩ := Option.isSome_iff_exists.1 hsome
    rw [createCorrelatedAlert, he]
  · intro now now2 alerts d rt hany
    have hnone : alerts.find? (corrMatch d) = none := by
      rw [List.find?_eq_none]
      intro a ha hc
      rw [List.any_eq_true.2 ⟨a, ha, hc⟩] at hany
      exact absurd hany (by simp)
    have hst1 : (createCorrelatedAlert now alerts d rt).1 =
        alerts ++ [newCorrelatedAlert now d rt] := by
      rw [createCorrelatedAlert, hnone]
    constructor
    · have hmatch : corrMatch d (newCorrelatedAlert now d rt) = true := by
        simp [corrMatch, newCorrelatedAlert, save]
      have hsome2 : ((alerts ++ [newCorrelatedAlert now d rt]).find?
          (corrMatch d)).isSome := by
        rw [List.find?_isSome]
        exact ⟨newCorrelatedAlert now d rt, by simp, hmatch⟩
      obtain ⟨e, he⟩ := Option.isSome_iff_exists.1 hsome2
      rw [hst1, createCorrelatedAlert, he]
    · rw [hst1]
      simp

theorem correlation_dedup_witness :
    (createCorrelatedAlert 1 (createCorrelatedAlert 0 [] exCandC2
        "attack_chain").1 exCandC2 "attack_chain").1 =
      (createCorrelatedAlert 0 [] exCandC2 "attack_chain").1 :=
  ((correlation_dedup_no_update.2 0 1 [] exCandC2 "attack_chain") rfl).1

/-! ### C4 — brute force fires exactly once per qualifying sourceIp -/

theorem mem_insertNew (acc : List String) (x s : String) :
    s ∈ insertNew acc x ↔ s ∈ acc ∨ s = x := by
  by_cases h : x ∈ acc
  · simp only [insertNew, h, if_true]
    constructor
    · exact Or.inl
    · rintro (hs | rfl)
      · exact hs
      · exact h
  · simp [insertNew, h]

theorem nodup_insertNew (acc : List String) (x : String) (h : acc.Nodup) :
    (insertNew acc x).Nodup := by
  by_cases hx : x ∈ acc
  · simpa [insertNew, hx] using h
  · simp [insertNew, hx, List.nodup_append, h]

theorem mem_firstSeen_foldl (f : Log → Bool) (logs : List Log) :
    ∀ (acc : List String) (s : String),
      s ∈ logs.foldl
          (fun acc l => if f l then insertNew acc l.sourceIp else acc) acc ↔
        s ∈ acc ∨ ∃ l ∈ logs, f l = true ∧ l.sourceIp = s := by
  induction logs with
  | nil => simp
  | cons l rest ih =>
      intro acc s
      simp only [List.foldl_cons]
      by_cases hf : f l = true
      · rw [if_pos hf, ih, mem_insertNew]
        constructor
        · rintro ((hs | rfl) | ⟨x, hx, hfx, hxs⟩)
          · exact Or.inl hs
          · exact Or.inr ⟨l, List.mem_cons_self l rest, hf, rfl⟩
          · exact Or.inr ⟨x, List.mem_cons_of_mem l hx, hfx, hxs⟩
        · rintro (hs | ⟨x, hx, hfx, hxs⟩)
          · exact Or.inl (Or.inl hs)
          · rcases List.mem_cons.1 hx with rfl | hx2
            · exact Or.inl (Or.inr hxs.symm)
            · exact Or.inr ⟨x, hx2, hfx, hxs⟩
      · rw [if_neg hf, ih]
        constructor
        · rintro (hs | ⟨x, hx, hfx, hxs⟩)
          · exact Or.inl hs
          · exact Or.inr ⟨x, List.mem_cons_of_mem l hx, hfx, hxs⟩
        · rintro (hs | ⟨x, hx, hfx, hxs⟩)
          · exact Or.inl hs
          · rcases List.mem_cons.1 hx with rfl | hx2
            · exact absurd hfx hf
            · exact Or.inr ⟨x, hx2, hfx, hxs⟩

theorem nodup_firstSeen_foldl (f : Log → Bool) (logs : List Log) :
    ∀ acc : List String, acc.Nodup →
      (logs.foldl
        (fun acc l => if f l then insertNew acc l.sourceIp else acc) acc).Nodup := by
  induction logs with
  | nil => intro acc h; simpa
  | cons l rest ih =>
      intro acc h
      simp only [List.foldl_cons]
      by_cases hf : f l = true
      · rw [if_pos hf]; exact ih _ (nodup_insertNew _ _ h)
      · rw [if_neg hf]; exact ih _ h

theorem mem_firstSeenIps (f : Log → Bool) (logs : List Log) (s : String) :
    s ∈ firstSeenIps f logs ↔ ∃ l ∈ logs, f l = true ∧ l.sourceIp = s := by
  rw [firstSeenIps, mem_firstSeen_foldl]
  simp

theorem firstSeenIps_nodup (f : Log → Bool) (logs : List Log) :
    (firstSeenIps f logs).Nodup :=
  nodup_firstSeen_foldl f logs [] (by simp)

theorem countP_filterMap_bykey (g : String → Option Candidate)
    (hg : ∀ s d, g s = some d → d.sourceIp = s) (ip : String) :
    ∀ l : List String, l.Nodup →
      ((l.filterMap g).countP fun d => decide (d.sourceIp = ip)) =
        if ip ∈ l ∧ (g ip).isSome = true then 1 else 0 := by
  intro l
  induction l with
  | nil => simp
  | cons s rest ih =>
      intro hnd
      obtain ⟨hs, hrest⟩ := List.nodup_cons.1 hnd
      rw [List.filterMap_cons]
      cases hgs : g s with
      | none =>
          rw [ih hrest]
          by_cases hip : ip = s
          · subst hip
            have h1 : (g ip).isSome = false := by rw [hgs]; rfl
            simp [hs, h1]
          · simp [List.mem_cons, Ne.symm hip, hip]
      | some d =>
          have hd : d.sourceIp = s := hg s d hgs
          rw [List.countP_cons, ih hrest]
          by_cases hip : ip = s
          · subst hip
            have h1 : (g ip).isSome = true := by rw [hgs]; rfl
            simp [hs, h1, hd]
          · have hne : ¬(d.sourceIp = ip) := by rw [hd]; exact Ne.symm hip
            simp [List.mem_cons, hne, hip]

/-- C4: in one cycle, a sourceIp with at least `bruteForceAttempts = 5`
security-category events containing "failed" and a nonempty sourceIp gets
exactly one brute-force Detection with confidence = min(95, 60 + 5·count);
below the threshold it gets none. -/
theorem bruteforce_once_per_ip (logs : List Log) (ip : String) :
    (bruteForceAttempts ≤ (failedFrom logs ip).length →
      ((detectBruteForce logs).countP fun d => decide (d.sourceIp = ip)) = 1 ∧
      ∀ d ∈ detectBruteForce logs, d.sourceIp = ip →
        d.confidence = min 95 (60 + ((failedFrom logs ip).length : ℚ) * 5)) ∧
    ((failedFrom logs ip).length < bruteForceAttempts →
      ((detectBruteForce logs).countP fun d => decide (d.sourceIp = ip)) = 0) := by
  have hg : ∀ s d, bruteCandidate logs s = some d → d.sourceIp = s := by
    intro s d hsd
    rw [bruteCandidate] at hsd
    by_cases hth : bruteForceAttempts ≤ (failedFrom logs s).length
    · rw [if_pos hth] at hsd
      cases hsd
      rfl
    · rw [if_neg hth] at hsd
      cases hsd
  have hcount := countP_filterMap_bykey (bruteCandidate logs) hg ip
    (firstSeenIps isFailedSecLog logs) (firstSeenIps_nodup _ _)
  constructor
  · intro hth
    have hmem : ip ∈ firstSeenIps isFailedSecLog logs := by
      rw [mem_firstSeenIps]
      have hne : failedFrom logs ip ≠ [] := by
        intro hnil
        rw [hnil] at hth
        exact absurd hth (by simp [bruteForceAttempts])
      obtain ⟨l, hl⟩ := List.exists_mem_of_ne_nil _ hne
      rw [failedFrom] at hl
      have hl2 := List.mem_filter.1 hl
      have hl3 := List.mem_filter.1 hl2.1
      exact ⟨l, hl3.1, hl3.2, by simpa using hl2.2⟩
    have hsome : (bruteCandidate logs ip).isSome = true := by
      rw [bruteCandidate]
      simp only [if_pos hth]
      rfl
    constructor
    · rw [detectBruteForce, hcount, if_pos ⟨hmem, hsome⟩]
    · intro d hd hdip
      rw [detectBruteForce] at hd
      obtain ⟨s, _, hgs⟩ := List.mem_filterMap.1 hd
      have hsip : s = ip := by rw [← hdip, hg s d hgs]
      subst hsip
      rw [bruteCandidate] at hgs
      rw [if_pos hth] at hgs
      cases hgs
      rfl
  · intro hth
    have hnone : (bruteCandidate logs ip).isSome = false := by
      rw [bruteCandidate]
      simp only [if_neg (Nat.not_le.2 hth)]
      rfl
    rw [detectBruteForce, hcount, if_neg]
    rintro ⟨_, hcontra⟩
    rw [hnone] at hcontra
    exact absurd hcontra (by simp)

theorem bruteforce_witness :
    ((detectBruteForce exBruteLogs).countP fun d =>
        decide (d.sourceIp = "9.9.9.9")) = 1 :=
  ((bruteforce_once_per_ip exBruteLogs "9.9.9.9").1 (by decide)).1

/-! ### C5 — anomalous-volume thresholding -/

/-- C5: (i) the ℚ-encoded flag test is exactly `count > mean + k·√variance`;
(ii) every emitted anomaly confidence is capped at 90; (iii) a flagged IP
strictly exceeds both the stddev threshold and the absolute floor 50;
(iv) with fewer than 2 distinct IPs no anomaly fires; (v) for per-IP counts
[10, 10, 10, 60] no anomaly fires. -/
theorem anomaly_rule_behavior :
    (∀ k c m v : ℚ, 0 ≤ v → 0 ≤ k →
        (exceedsStdDev k c m v = true ↔
          (m : ℝ) + (k : ℝ) * Real.sqrt (v : ℝ) < (c : ℝ)))
    ∧ (∀ (sqrtQ : ℚ → ℚ) logs, ∀ d ∈ detectAnomalousTraffic sqrtQ logs,
        d.confidence ≤ 90)
    ∧ (∀ logs p, p ∈ flaggedPairs logs →
        50 < p.2 ∧ exceedsStdDev anomalyThreshold (p.2 : ℚ)
          (qmean ((trafficCounts logs).map Prod.snd))
          (qvariance ((trafficCounts logs).map Prod.snd)) = true)
    ∧ (∀ (sqrtQ : ℚ → ℚ) logs, (trafficCounts logs).length < 2 →
        detectAnomalousTraffic sqrtQ logs = [])
    ∧ (∀ sqrtQ : ℚ → ℚ, detectAnomalousTraffic sqrtQ logs10101060 = []) := by
  refine ⟨?_, ?_, ?_, ?_, ?_⟩
  · intro k c m v hv hk
    have hs : (0 : ℝ) ≤ Real.sqrt (v : ℝ) := Real.sqrt_nonneg _
    have hvr : (0 : ℝ) ≤ (v : ℝ) := by exact_mod_cast hv
    have hkr : (0 : ℝ) ≤ (k : ℝ) := by exact_mod_cast hk
    have hsq : Real.sqrt (v : ℝ) ^ 2 = (v : ℝ) := Real.sq_sqrt hvr
    rw [exceedsStdDev, Bool.and_eq_true, decide_eq_true_eq, decide_eq_true_eq]
    constructor
    · rintro ⟨h1, h2⟩
      have h1r : (m : ℝ) < (c : ℝ) := by exact_mod_cast h1
      have h2r : (k : ℝ) ^ 2 * (v : ℝ) < ((c : ℝ) - (m : ℝ)) ^ 2 := by
        exact_mod_cast h2
      nlinarith [mul_nonneg hkr hs, hsq,
        sq_nonneg ((k : ℝ) * Real.sqrt (v : ℝ) + ((c : ℝ) - (m : ℝ)))]
    · intro h
      have h1r : (m : ℝ) < (c : ℝ) := by nlinarith [mul_nonneg hkr hs]
      refine ⟨by exact_mod_cast h1r, ?_⟩
      have h2r : (k : ℝ) ^ 2 * (v : ℝ) < ((c : ℝ) - (m : ℝ)) ^ 2 := by
        nlinarith [mul_nonneg hkr hs, hsq]
      exact_mod_cast h2r
  · intro sqrtQ logs d hd
    rw [detectAnomalousTraffic] at hd
    obtain ⟨p, _, rfl⟩ := List.mem_map.1 hd
    exact min_le_left _ _
  · intro logs p hp
    rw [flaggedPairs] at hp
    by_cases hlen : 0 < (trafficCounts logs).length
    · rw [if_pos hlen] at hp
      have h2 := (List.mem_filter.1 hp).2
      rw [Bool.and_eq_true, decide_eq_true_eq] at h2
      exact ⟨h2.2, h2.1⟩
    · rw [if_neg hlen] at hp
      simp at hp
  · intro sqrtQ logs hlen
    have hflag : flaggedPairs logs = [] := by
      rw [flaggedPairs]
      have h01 : (trafficCounts logs).length = 0 ∨
          (trafficCounts logs).length = 1 := by omega
      rcases h01 with h0 | h1
      · simp [h0]
      · obtain ⟨x, hx⟩ := List.length_eq_one.1 h1
        rw [if_pos (by omega), hx]
        have hm : qmean ([x].map Prod.snd) = (x.2 : ℚ) := by simp [qmean]
        rw [List.filter_eq_nil_iff]
        intro p hp
        rw [List.mem_singleton] at hp
        subst hp
        rw [hm, exceedsStdDev]
        simp
    rw [detectAnomalousTraffic, hflag]
    rfl
  · intro sqrtQ
    have hcounts : trafficCounts logs10101060 =
        [("10.0.0.1", 10), ("10.0.0.2", 10), ("10.0.0.3", 10), ("10.0.0.4", 60)] := by
      decide
    have hm : qmean [10, 10, 10, 60] = 45 / 2 := by
      norm_num [qmean]
    have hv : qvariance [10, 10, 10, 60] = 1875 / 4 := by
      norm_num [qvariance, hm]
    have hflag : flaggedPairs logs10101060 = [] := by
      rw [flaggedPairs, hcounts]
      simp only [List.map_cons, List.map_nil]
      rw [hm, hv]
      norm_num [exceedsStdDev, anomalyThreshold]
    rw [detectAnomalousTraffic, hflag]
    rfl

theorem anomaly_witness :
    detectAnomalousTraffic (fun _ => 0) [mkAppLog 0 "8.8.8.8"] = [] :=
  anomaly_rule_behavior.2.2.2.1 (fun _ => 0) [mkAppLog 0 "8.8.8.8"] (by decide)

/-! ### C6 — escalation scan: exactly one enqueue, idempotent -/

theorem countP_eq_and (q : Alert → Bool) (a : Alert) :
    ∀ l : List Alert, (l.countP fun b => decide (b = a) && q b) =
      if q a = true then l.count a else 0 := by
  intro l
  induction l with
  | nil => simp
  | cons b rest ih =>
      rw [List.countP_cons, ih, List.count_cons]
      by_cases hb : b = a
      · subst hb
        by_cases hq : q b = true <;> simp [hq]
      · have hba : (b == a) = false := by
          simp [hb]
        simp [hb, hba]

theorem countP_escSegment (now : ℤ) (r : EscRule) (alerts : List Alert)
    (a : Alert) :
    (((alerts.filter (escMatches now r)).map fun b => (b, r.channels)).countP
        fun e => decide (e.1 = a)) =
      if escMatches now r a = true then alerts.count a else 0 := by
  rw [List.countP_map, List.countP_filter]
  exact countP_eq_and (escMatches now r) a alerts

/-- C6: in one escalation scan, an `active` Alert strictly older than its
severity tier's timeout with no notification matching any of that tier's
channels is enqueued exactly once; an Alert carrying a notification that
matches the tier's channels — in particular the record `channels.join(',')`
written after a previous escalation — is never enqueued; the tier table is
critical/5min, high/15min, medium/30min. -/
theorem escalation_scan_behavior :
    (∀ now (alerts : List Alert) (a : Alert) (r : EscRule),
        r ∈ escalationRules → alerts.count a = 1 → a.severity = r.severity →
        a.status = .active → r.escalateAfter < now - a.createdAt →
        (∀ n ∈ a.notifications,
          methodMatchesChannels r.channels n.method = false) →
        ((checkEscalations now alerts).countP fun e => decide (e.1 = a)) = 1)
    ∧ (∀ now (alerts : List Alert) (a : Alert) (r : EscRule),
        r ∈ escalationRules → a.severity = r.severity →
        (∃ n ∈ a.notifications,
          methodMatchesChannels r.channels n.method = true) →
        ((checkEscalations now alerts).countP fun e => decide (e.1 = a)) = 0)
    ∧ (escalationRules.map (fun r => (r.severity, r.escalateAfter)) =
        [(.critical, 300000), (.high, 900000), (.medium, 1800000)])
    ∧ (∀ r ∈ escalationRules,
        methodMatchesChannels r.channels (String.intercalate "," r.channels) =
          true) := by
  have hsplit : ∀ now (alerts : List Alert) (a : Alert),
      ((checkEscalations now alerts).countP fun e => decide (e.1 = a)) =
        (if escMatches now ⟨.critical, 300000, ["email", "webhook", "dashboard"]⟩
            a = true then alerts.count a else 0) +
        ((if escMatches now ⟨.high, 900000, ["email", "dashboard"]⟩ a = true
            then alerts.count a else 0) +
          ((if escMatches now ⟨.medium, 1800000, ["dashboard"]⟩ a = true
              then alerts.count a else 0) + 0)) := by
    intro now alerts a
    rw [checkEscalations, escalationRules]
    simp only [List.flatMap_cons, List.flatMap_nil, List.countP_append,
      List.countP_nil]
    rw [countP_escSegment now ⟨.critical, 300000, ["email", "webhook", "dashboard"]⟩
        alerts a,
      countP_escSegment now ⟨.high, 900000, ["email", "dashboard"]⟩ alerts a,
      countP_escSegment now ⟨.medium, 1800000, ["dashboard"]⟩ alerts a]
  have hnotifFalse : ∀ (r : EscRule) (a : Alert),
      (∀ n ∈ a.notifications,
        methodMatchesChannels r.channels n.method = false) →
      (a.notifications.any fun n =>
        methodMatchesChannels r.channels n.method) = false := by
    intro r a h
    rw [List.any_eq_false]
    intro n hn
    rw [h n hn]
    simp
  refine ⟨?_, ?_, rfl, ?_⟩
  · intro now alerts a r hr hcnt hsev hst hage hnone
    rw [hsplit]
    have hany := hnotifFalse r a hnone
    rw [escalationRules] at hr
    simp only [List.mem_cons, List.mem_singleton, List.not_mem_nil, or_false] at hr
    rcases hr with rfl | rfl | rfl
    · have h1 : escMatches now ⟨.critical, 300000, ["email", "webhook", "dashboard"]⟩
          a = true := by
        simp only [escMatches, Bool.and_eq_true, decide_eq_true_eq,
          Bool.not_eq_true']
        exact ⟨⟨⟨hsev, hst⟩, by dsimp only at hage ⊢; omega⟩, hany⟩
      have h2 : escMatches now ⟨.high, 900000, ["email", "dashboard"]⟩ a = false := by
        simp [escMatches, hsev]
      have h3 : escMatches now ⟨.medium, 1800000, ["dashboard"]⟩ a = false := by
        simp [escMatches, hsev]
      rw [h1, h2, h3]
      simp [hcnt]
    · have h1 : escMatches now ⟨.critical, 300000, ["email", "webhook", "dashboard"]⟩
          a = false := by
        simp [escMatches, hsev]
      have h2 : escMatches now ⟨.high, 900000, ["email", "dashboard"]⟩ a = true := by
        simp only [escMatches, Bool.and_eq_true, decide_eq_true_eq,
          Bool.not_eq_true']
        exact ⟨⟨⟨hsev, hst⟩, by dsimp only at hage ⊢; omega⟩, hany⟩
      have h3 : escMatches now ⟨.medium, 1800000, ["dashboard"]⟩ a = false := by
        simp [escMatches, hsev]
      rw [h1, h2, h3]
      simp [hcnt]
    · have h1 : escMatches now ⟨.critical, 300000, ["email", "webhook", "dashboard"]⟩
          a = false := by
        simp [escMatches, hsev]
      have h2 : escMatches now ⟨.high, 900000, ["email", "dashboard"]⟩ a = false := by
        simp [escMatches, hsev]
      have h3 : escMatches now ⟨.medium, 1800000, ["dashboard"]⟩ a = true := by
        simp only [escMatches, Bool.and_eq_true, decide_eq_true_eq,
          Bool.not_eq_true']
        exact ⟨⟨⟨hsev, hst⟩, by dsimp only at hage ⊢; omega⟩, hany⟩
      rw [h1, h2, h3]
      simp [hcnt]
  · intro now alerts a r hr hsev hex
    rw [hsplit]
    obtain ⟨n, hn, hmatch⟩ := hex
    have hany : (a.notifications.any fun n =>
        methodMatchesChannels r.channels n.method) = true :=
      List.any_eq_true.2 ⟨n, hn, hmatch⟩
    rw [escalationRules] at hr
    simp only [List.mem_cons, List.mem_singleton, List.not_mem_nil, or_false] at hr
    rcases hr with rfl | rfl | rfl
    · have h1 : escMatches now ⟨.critical, 300000, ["email", "webhook", "dashboard"]⟩
          a = false := by
        simp [escMatches, hany]
      have h2 : escMatches now ⟨.high, 900000, ["email", "dashboard"]⟩ a = false := by
        simp [escMatches, hsev]
      have h3 : escMatches now ⟨.medium, 1800000, ["dashboard"]⟩ a = false := by
        simp [escMatches, hsev]
      rw [h1, h2, h3]
      simp
    · have h1 : escMatches now ⟨.critical, 300000, ["email", "webhook", "dashboard"]⟩
          a = false := by
        simp [escMatches, hsev]
      have h2 : escMatches now ⟨.high, 900000, ["email", "dashboard"]⟩ a = false := by
        simp [escMatches, hany]
      have h3 : escMatches now ⟨.medium, 1800000, ["dashboard"]⟩ a = false := by
        simp [escMatches, hsev]
      rw [h1, h2, h3]
      simp
    · have h1 : escMatches now ⟨.critical, 300000, ["email", "webhook", "dashboard"]⟩
          a = false := by
        simp [escMatches, hsev]
      have h2 : escMatches now ⟨.high, 900000, ["email", "dashboard"]⟩ a = false := by
        simp [escMatches, hsev]
      have h3 : escMatches now ⟨.medium, 1800000, ["dashboard"]⟩ a = false := by
        simp [escMatches, hany]
      rw [h1, h2, h3]
      simp
  · intro r hr
    rw [escalationRules] at hr
    simp only [List.mem_cons, List.mem_singleton, List.not_mem_nil, or_false] at hr
    rcases hr with rfl | rfl | rfl <;> decide

theorem escalation_witness :
    ((checkEscalations 400000 [exEscAlert]).countP fun e =>
        decide (e.1 = exEscAlert)) = 1 :=
  escalation_scan_behavior.1 400000 [exEscAlert] exEscAlert
    ⟨.critical, 300000, ["email", "webhook", "dashboard"]⟩
    (by rw [escalationRules]; exact List.mem_cons_self _ _)
    (by decide) rfl rfl (by decide) (by intro n hn; simp [exEscAlert, baseAlert] at hn)

/-! ### C8 — a throwing rule is isolated; processed flags still advance -/

/-- C8: a rule whose evaluation throws on the fetched batch leaves the cycle
exactly as if the rule were absent (all other enabled rules still run), and
after any cycle every in-window log in the store is marked processed. -/
theorem rule_failure_isolation :
    (∀ now window (st : List Alert) (store : List Log)
        (pre post : List DetRule) (r : DetRule) (e : String),
        r.condition (fetchBatch now window store) = .error e →
        runDetectionCycle now window (pre ++ r :: post) st store =
          runDetectionCycle now window (pre ++ post) st store)
    ∧ (∀ now window (rules : List DetRule) (st : List Alert)
        (store : List Log),
        ∀ l ∈ (runDetectionCycle now window rules st store).2,
          now - window ≤ l.timestamp → l.processed = true) := by
  constructor
  · intro now window st store pre post r e herr
    rw [runDetectionCycle, runDetectionCycle]
    simp only [List.foldl_append, List.foldl_cons]
    have hstep : ∀ s : List Alert,
        (if r.enabled then
          executeDetectionRule now window r s (fetchBatch now window store)
        else s) = s := by
      intro s
      rw [executeDetectionRule, herr]
      split <;> rfl
    rw [hstep]
  · intro now window rules st store l hl hwin
    rw [runDetectionCycle] at hl
    simp only at hl
    rw [markProcessed] at hl
    obtain ⟨l0, hl0, heq⟩ := List.mem_map.1 hl
    by_cases hb : (fetchBatch now window store).any fun b => decide (b.id = l0.id)
    · rw [if_pos hb] at heq
      rw [← heq]
    · rw [if_neg hb] at heq
      subst heq
      by_cases hproc : l0.processed = true
      · exact hproc
      · exfalso
        have hmem : l0 ∈ fetchBatch now window store := by
          rw [fetchBatch, List.mem_filter]
          refine ⟨hl0, ?_⟩
          rw [Bool.and_eq_true, decide_eq_true_eq]
          exact ⟨hwin, by simp [Bool.not_eq_true] at hproc ⊢; exact hproc⟩
        exact hb (List.any_eq_true.2 ⟨l0, hmem, by simp⟩)

theorem rule_failure_witness :
    runDetectionCycle 0 300000 ([] ++ errRule :: []) [] [] =
      runDetectionCycle 0 300000 ([] ++ []) [] [] :=
  rule_failure_isolation.1 0 300000 [] [] [] [] errRule "boom" rfl

/-! ### C10 — severity fixed by rule type; immediate notification -/

/-- C10: the detection rule table pins each rule type to a fixed severity
(brute_force/privilege_escalation → high, sql_injection/data_exfiltration →
critical, anomaly → medium); `executeDetectionRule` stamps the rule's type and
severity onto every candidate regardless of its content, merges never change
severity, and a newly created alert triggers the immediate notification
exactly when its severity is high or critical — hence always for the four
high/critical rule types. -/
theorem detection_severity_and_notification :
    (∀ sqrtQ : ℚ → ℚ, (detectionRules sqrtQ).map (fun r => (r.type, r.severity)) =
        [("brute_force", .high), ("sql_injection", .critical),
         ("anomaly", .medium), ("privilege_escalation", .high),
         ("data_exfiltration", .critical)])
    ∧ (∀ r d, (tagCandidate r d).severity = r.severity ∧
        (tagCandidate r d).type = r.type)
    ∧ (∀ d a, (mergeAlert d a).severity = a.severity)
    ∧ (∀ now window (st : List Alert) d,
        st.any (dedupMatch now window d) = false →
        ((createAlert now window st d).2 = true ↔
          d.severity = .high ∨ d.severity = .critical))
    ∧ (∀ (sqrtQ : ℚ → ℚ) r, r ∈ detectionRules sqrtQ →
        (r.type = "brute_force" ∨ r.type = "sql_injection" ∨
          r.type = "privilege_escalation" ∨ r.type = "data_exfiltration") →
        ∀ now window (st : List Alert) d,
          st.any (dedupMatch now window (tagCandidate r d)) = false →
          (createAlert now window st (tagCandidate r d)).2 = true) := by
  have hflag : ∀ now window (st : List Alert) d,
      st.any (dedupMatch now window d) = false →
      ((createAlert now window st d).2 = true ↔
        d.severity = .high ∨ d.severity = .critical) := by
    intro now window st d hany
    rw [createAlert, if_neg (by rw [hany]; exact fun h => absurd h (by simp))]
    have hsev : (newAlert now d).severity = d.severity := rfl
    rw [Bool.or_eq_true, decide_eq_true_eq, decide_eq_true_eq, hsev]
  refine ⟨fun _ => rfl, fun r d => ⟨rfl, rfl⟩, fun d a => rfl, hflag, ?_⟩
  · intro sqrtQ r hr htype now window st d hany
    rw [hflag now window st (tagCandidate r d) hany]
    have hsev : (tagCandidate r d).severity = r.severity := rfl
    rw [hsev]
    rw [detectionRules] at hr
    simp only [List.mem_cons, List.not_mem_nil, or_false] at hr
    rcases hr with rfl | rfl | rfl | rfl | rfl
    · exact Or.inl rfl
    · exact Or.inr rfl
    · rcases htype with h | h | h | h <;>
        exact absurd (show ("anomaly" : String) = _ from h) (by decide)
    · exact Or.inl rfl
    · exact Or.inr rfl

theorem detection_notification_witness :
    (createAlert 0 300000 []
      (tagCandidate
        { name := "Brute Force Detection", type := "brute_force"
          condition := fun logs => .ok (detectBruteForce logs)
          severity := .high, enabled := true } exCandC2)).2 = true :=
  detection_severity_and_notification.2.2.2.2 (fun _ => 0)
    { name := "Brute Force Detection", type := "brute_force"
      condition := fun logs => .ok (detectBruteForce logs)
      severity := .high, enabled := true }
    (by rw [detectionRules]; exact List.mem_cons_self _ _)
    (Or.inl rfl) 0 300000 [] exCandC2 rfl

end Siem
